import Mathlib

/-!
Shallow embedding of the ride-booking dashboard core (`src/uber.py`).

The dataset is a list of booking records (`Row`).  The module-level pandas
frame `df_uber` becomes an explicit `List Row` parameter; the derived column
`Hour` is carried as the `hour` field, computed at load time from the pickup
timestamp.  The three sequential narrowing steps of `filter_data`
(`df = df[df['Booking Status'] == status]`, the vehicle step, and the
inclusive hour-range mask) are embedded as three list-filter stages applied
in the source's order.  Ride distances and ratings are modelled as exact
rationals.
-/

namespace Uber

/-- One booking record: the columns kept by `df_uber` after column selection,
plus the derived `Hour` column. -/
structure Row where
  date : String
  time : String
  bookingID : String
  bookingStatus : String
  customerID : String
  vehicleType : String
  pickupLocation : String
  dropLocation : String
  rideDistance : ℚ
  driverRatings : ℚ
  customerRating : ℚ
  paymentMethod : String
  hour : Nat
  deriving DecidableEq, Repr

/-- `if status != "All": df = df[df['Booking Status'] == status]` -/
def statusFiltered (df : List Row) (status : String) : List Row :=
  if status ≠ "All" then df.filter (fun r => decide (r.bookingStatus = status)) else df

/-- `if vehicle != "All": df = df[df['Vehicle Type'] == vehicle]` -/
def vehicleFiltered (df : List Row) (vehicle : String) : List Row :=
  if vehicle ≠ "All" then df.filter (fun r => decide (r.vehicleType = vehicle)) else df

/-- `df = df[(df['Hour'] >= start_hour) & (df['Hour'] <= end_hour)]` -/
def hourFiltered (df : List Row) (hour_range : Nat × Nat) : List Row :=
  df.filter (fun r => decide (hour_range.1 ≤ r.hour) && decide (r.hour ≤ hour_range.2))

/-- `filter_data(status, vehicle, hour_range)`: the three narrowing steps in
the source's order, starting from a copy of the full dataset. -/
def filter_data (df : List Row) (status vehicle : String) (hour_range : Nat × Nat) : List Row :=
  hourFiltered (vehicleFiltered (statusFiltered df status) vehicle) hour_range

theorem mem_statusFiltered {r : Row} {df : List Row} {status : String} :
    r ∈ statusFiltered df status ↔ r ∈ df ∧ (status ≠ "All" → r.bookingStatus = status) := by
  unfold statusFiltered
  by_cases h : status = "All" <;> simp [h, List.mem_filter]

theorem mem_vehicleFiltered {r : Row} {df : List Row} {vehicle : String} :
    r ∈ vehicleFiltered df vehicle ↔ r ∈ df ∧ (vehicle ≠ "All" → r.vehicleType = vehicle) := by
  unfold vehicleFiltered
  by_cases h : vehicle = "All" <;> simp [h, List.mem_filter]

theorem mem_hourFiltered {r : Row} {df : List Row} {hr : Nat × Nat} :
    r ∈ hourFiltered df hr ↔ r ∈ df ∧ (hr.1 ≤ r.hour ∧ r.hour ≤ hr.2) := by
  unfold hourFiltered
  simp [List.mem_filter]

theorem mem_filter_data {r : Row} {df : List Row} {status vehicle : String} {hr : Nat × Nat} :
    r ∈ filter_data df status vehicle hr ↔
      r ∈ df ∧ (status ≠ "All" → r.bookingStatus = status) ∧
        (vehicle ≠ "All" → r.vehicleType = vehicle) ∧ (hr.1 ≤ r.hour ∧ r.hour ≤ hr.2) := by
  unfold filter_data
  rw [mem_hourFiltered, mem_vehicleFiltered, mem_statusFiltered]
  tauto

theorem statusFiltered_eq_self {df : List Row} {status : String}
    (h : ∀ r ∈ df, status ≠ "All" → r.bookingStatus = status) :
    statusFiltered df status = df := by
  unfold statusFiltered
  by_cases hs : status = "All"
  · simp [hs]
  · simp only [hs, ne_eq, not_false_eq_true, if_pos]
    exact List.filter_eq_self.mpr fun r hr => by simp [h r hr hs]

theorem vehicleFiltered_eq_self {df : List Row} {vehicle : String}
    (h : ∀ r ∈ df, vehicle ≠ "All" → r.vehicleType = vehicle) :
    vehicleFiltered df vehicle = df := by
  unfold vehicleFiltered
  by_cases hv : vehicle = "All"
  · simp [hv]
  · simp only [hv, ne_eq, not_false_eq_true, if_pos]
    exact List.filter_eq_self.mpr fun r hr => by simp [h r hr hv]

theorem hourFiltered_eq_self {df : List Row} {hr : Nat × Nat}
    (h : ∀ r ∈ df, hr.1 ≤ r.hour ∧ r.hour ≤ hr.2) :
    hourFiltered df hr = df := by
  unfold hourFiltered
  exact List.filter_eq_self.mpr fun r hrm => by
    simp [(h r hrm).1, (h r hrm).2]

theorem filter_data_eq_self {df : List Row} {status vehicle : String} {hr : Nat × Nat}
    (h : ∀ r ∈ df, (status ≠ "All" → r.bookingStatus = status) ∧
      (vehicle ≠ "All" → r.vehicleType = vehicle) ∧ (hr.1 ≤ r.hour ∧ r.hour ≤ hr.2)) :
    filter_data df status vehicle hr = df := by
  unfold filter_data
  rw [statusFiltered_eq_self (fun r hr => (h r hr).1),
      vehicleFiltered_eq_self (fun r hr => (h r hr).2.1),
      hourFiltered_eq_self (fun r hr => (h r hr).2.2)]

theorem statusFiltered_sublist (df : List Row) (status : String) :
    (statusFiltered df status).Sublist df := by
  unfold statusFiltered
  by_cases h : status = "All" <;> simp [h, List.filter_sublist]

theorem vehicleFiltered_sublist (df : List Row) (vehicle : String) :
    (vehicleFiltered df vehicle).Sublist df := by
  unfold vehicleFiltered
  by_cases h : vehicle = "All" <;> simp [h, List.filter_sublist]

theorem hourFiltered_sublist (df : List Row) (hr : Nat × Nat) :
    (hourFiltered df hr).Sublist df := List.filter_sublist df

theorem filter_data_sublist (df : List Row) (status vehicle : String) (hr : Nat × Nat) :
    (filter_data df status vehicle hr).Sublist df :=
  ((hourFiltered_sublist _ _).trans (vehicleFiltered_sublist _ _)).trans
    (statusFiltered_sublist _ _)

/-- Three-row sample dataset (the worked example of the specification):
Complete/Sedan at hour 8, Incomplete/Sedan at hour 14, Complete/SUV at 20. -/
def row1 : Row :=
  { date := "2024-01-01", time := "08:10:00", bookingID := "B1", bookingStatus := "Complete",
    customerID := "U1", vehicleType := "Sedan", pickupLocation := "Alpha",
    dropLocation := "Beta", rideDistance := 10, driverRatings := 4, customerRating := 5,
    paymentMethod := "Cash", hour := 8 }

def row2 : Row :=
  { date := "2024-01-01", time := "14:05:00", bookingID := "B2", bookingStatus := "Incomplete",
    customerID := "U2", vehicleType := "Sedan", pickupLocation := "Alpha",
    dropLocation := "Gamma", rideDistance := 5, driverRatings := 3, customerRating := 4,
    paymentMethod := "Card", hour := 14 }

def row3 : Row :=
  { date := "2024-01-02", time := "20:30:00", bookingID := "B3", bookingStatus := "Complete",
    customerID := "U3", vehicleType := "SUV", pickupLocation := "Beta",
    dropLocation := "Alpha", rideDistance := 7, driverRatings := 5, customerRating := 5,
    paymentMethod := "Cash", hour := 20 }

def ds1 : List Row := [row1, row2, row3]

/-- C1: with status ≠ "All" and vehicle ≠ "All", every row of the filtered
view has the selected booking status, the selected vehicle type, and an hour
inside the inclusive selected range. -/
theorem C1_filtered_rows_match_selection {df : List Row} {status vehicle : String}
    {hr : Nat × Nat} {r : Row} (hs : status ≠ "All") (hv : vehicle ≠ "All")
    (hmem : r ∈ filter_data df status vehicle hr) :
    r.bookingStatus = status ∧ r.vehicleType = vehicle ∧ hr.1 ≤ r.hour ∧ r.hour ≤ hr.2 := by
  have h := mem_filter_data.mp hmem
  exact ⟨h.2.1 hs, h.2.2.1 hv, h.2.2.2⟩

theorem C1_witness :
    ("Complete" : String) ≠ "All" ∧ ("Sedan" : String) ≠ "All" ∧
      row1 ∈ filter_data ds1 "Complete" "Sedan" (0, 23) ∧
      (row1.bookingStatus = "Complete" ∧ row1.vehicleType = "Sedan" ∧
        0 ≤ row1.hour ∧ row1.hour ≤ 23) :=
  ⟨by decide, by decide, by decide,
    @C1_filtered_rows_match_selection ds1 "Complete" "Sedan" (0, 23) row1
      (by decide) (by decide) (by decide)⟩

/-- C7: filtering is idempotent — running `filter_data` again, with the same
selection, on the view it already produced returns that view unchanged. -/
theorem C7_filter_idempotent (df : List Row) (status vehicle : String) (hr : Nat × Nat) :
    filter_data (filter_data df status vehicle hr) status vehicle hr =
      filter_data df status vehicle hr :=
  filter_data_eq_self fun _ hrm => (mem_filter_data.mp hrm).2

/-- C8: the filtered view is always a sub-sequence (hence subset) of the
dataset the filter was given.  The embedding of `filter_data` is a pure
function of `(dataset, selection)` — the source likewise copies the frame
(`df_uber.copy()`) and never writes to the store — so determinism and
non-mutation hold by construction, and the subset invariant is the
substantive part proved here. -/
theorem C8_filtered_view_sublist (df : List Row) (status vehicle : String) (hr : Nat × Nat) :
    (filter_data df status vehicle hr).Sublist df :=
  filter_data_sublist df status vehicle hr

/-- C10: an inverted hour range (start > end) makes the conjunctive hour mask
unsatisfiable, so the filter returns an empty view (no error), whatever the
status and vehicle selections are. -/
theorem C10_inverted_hour_range_empty (df : List Row) (status vehicle : String)
    {s e : Nat} (h : e < s) : filter_data df status vehicle (s, e) = [] := by
  unfold filter_data hourFiltered
  refine List.filter_eq_nil_iff.mpr fun r _ => ?_
  simp only [Bool.and_eq_true, decide_eq_true_eq, not_and]
  omega

theorem C10_witness :
    (3 : Nat) < 5 ∧ filter_data ds1 "All" "All" (5, 3) = [] :=
  ⟨by decide, C10_inverted_hour_range_empty ds1 "All" "All" (by decide)⟩

/-! ### Summary metrics (`summary_metrics`) -/

/-- The booking-status enumeration of the data model: the five values the
summary block counts one by one. -/
def enumStatuses : List String :=
  ["Complete", "Cancelled by Driver", "Cancelled by Customer", "No Driver Found", "Incomplete"]

/-- `len(df[df['Booking Status'] == s])` -/
def countStatus (df : List Row) (s : String) : Nat :=
  (df.filter (fun r => decide (r.bookingStatus = s))).length

/-- Arithmetic mean of a column, as in `Series.mean()` on an all-present
column (division by zero never occurs where this is used: the empty case is
short-circuited to `0` beforehand, as in the source). -/
def listMean (l : List ℚ) : ℚ := l.sum / l.length

/-- Round to the nearest integer, halves to the even neighbour — the rounding
Python's builtin `round` uses (float representation error is abstracted away:
we round the exact rational). -/
def roundHalfEven (q : ℚ) : ℤ :=
  if q - ⌊q⌋ < 1 / 2 then ⌊q⌋
  else if 1 / 2 < q - ⌊q⌋ then ⌊q⌋ + 1
  else if ⌊q⌋ % 2 = 0 then ⌊q⌋ else ⌊q⌋ + 1

/-- `round(x, 2)` -/
def round2 (q : ℚ) : ℚ := (roundHalfEven (q * 100) : ℚ) / 100

/-- Indicator names in the order the summary block builds them. -/
def summaryNames : List String :=
  ["Total Rides", "Completed", "Cancelled by Driver", "Cancelled by Customer",
   "No Driver Found", "Incomplete", "Avg Ride Distance", "Avg Driver Rating"]

/-- The indicator name under which a booking-status value is reported
("Complete" is displayed as "Completed"; the other four names coincide with
the status value). -/
def statusDisplayName (s : String) : String := if s = "Complete" then "Completed" else s

/-- The `numbers` list built inside `summary_metrics` (lines 51-69): one
`(name, value)` pair per `pn.indicators.Number`.  Counts are exact; the two
means use the source's `x.mean() if not df.empty else 0` guard and are
rounded to two decimals for display. -/
def summary_numbers (df : List Row) (status vehicle : String) (hr : Nat × Nat) :
    List (String × ℚ) :=
  let d := filter_data df status vehicle hr
  let avg_distance : ℚ := if d ≠ [] then listMean (d.map (·.rideDistance)) else 0
  let avg_driver_rating : ℚ := if d ≠ [] then listMean (d.map (·.driverRatings)) else 0
  [("Total Rides", (d.length : ℚ)),
   ("Completed", (countStatus d "Complete" : ℚ)),
   ("Cancelled by Driver", (countStatus d "Cancelled by Driver" : ℚ)),
   ("Cancelled by Customer", (countStatus d "Cancelled by Customer" : ℚ)),
   ("No Driver Found", (countStatus d "No Driver Found" : ℚ)),
   ("Incomplete", (countStatus d "Incomplete" : ℚ)),
   ("Avg Ride Distance", round2 avg_distance),
   ("Avg Driver Rating", round2 avg_driver_rating)]

/-- `summary_metrics` itself: it computes the indicator list and then returns
`pn.Row()` — an empty row, with the `pn.Row(*numbers, ...)` call left
commented out (line 71-72).  A row artifact is modelled as the list of
`(name, value)` indicators it carries. -/
def summary_metrics (df : List Row) (status vehicle : String) (hr : Nat × Nat) :
    List (String × ℚ) :=
  let numbers := summary_numbers df status vehicle hr
  []

theorem countStatus_cons (r : Row) (t : List Row) (s : String) :
    countStatus (r :: t) s = (if r.bookingStatus = s then 1 else 0) + countStatus t s := by
  unfold countStatus
  rw [List.filter_cons]
  by_cases h : r.bookingStatus = s <;> simp [h] <;> omega

theorem sum_countStatus (l : List Row) (h : ∀ r ∈ l, r.bookingStatus ∈ enumStatuses) :
    countStatus l "Complete" + countStatus l "Cancelled by Driver" +
      countStatus l "Cancelled by Customer" + countStatus l "No Driver Found" +
      countStatus l "Incomplete" = l.length := by
  induction l with
  | nil => simp [countStatus]
  | cons r t ih =>
    have ht : ∀ x ∈ t, x.bookingStatus ∈ enumStatuses := fun x hx =>
      h x (List.mem_cons_of_mem _ hx)
    have hr := h r (List.mem_cons_self r t)
    simp only [enumStatuses, List.mem_cons, List.not_mem_nil, or_false] at hr
    have ihh := ih ht
    rcases hr with h1 | h1 | h1 | h1 | h1 <;>
      simp [countStatus_cons, h1, List.length_cons] <;> omega

/-- C3: the computed summary artifact has exactly the business-specified
indicator names, in order (Total, the five statuses, then the two means), and
— statuses being the data model's closed enum — every status value observed
in the dataset has its count entry, even when its count in the filtered view
is zero. -/
theorem C3_status_counts_all_statuses_ordered (df : List Row) (status vehicle : String)
    (hr : Nat × Nat) (hclosed : ∀ r ∈ df, r.bookingStatus ∈ enumStatuses) :
    (summary_numbers df status vehicle hr).map Prod.fst = summaryNames ∧
      ∀ s, (∃ r ∈ df, r.bookingStatus = s) →
        (statusDisplayName s, (countStatus (filter_data df status vehicle hr) s : ℚ)) ∈
          summary_numbers df status vehicle hr := by
  constructor
  · simp [summary_numbers, summaryNames]
  · rintro s ⟨r, hrm, hbs⟩
    have hs := hclosed r hrm
    rw [hbs] at hs
    simp only [enumStatuses, List.mem_cons, List.not_mem_nil, or_false] at hs
    rcases hs with h | h | h | h | h <;> subst h <;> simp [summary_numbers, statusDisplayName]

theorem C3_witness :
    (∀ r ∈ ds1, r.bookingStatus ∈ enumStatuses) ∧
      ((summary_numbers ds1 "All" "All" (0, 23)).map Prod.fst = summaryNames ∧
        ∀ s, (∃ r ∈ ds1, r.bookingStatus = s) →
          (statusDisplayName s, (countStatus (filter_data ds1 "All" "All" (0, 23)) s : ℚ)) ∈
            summary_numbers ds1 "All" "All" (0, 23)) :=
  ⟨by decide, C3_status_counts_all_statuses_ordered ds1 "All" "All" (0, 23) (by decide)⟩

/-- C4: the "Total Rides" indicator (the head of the summary artifact) equals
the filtered view's row count, and — statuses being the closed five-value
enum — the five per-status counts partition that total. -/
theorem C4_total_equals_view_length (df : List Row) (status vehicle : String) (hr : Nat × Nat)
    (hclosed : ∀ r ∈ df, r.bookingStatus ∈ enumStatuses) :
    (summary_numbers df status vehicle hr).head? =
        some ("Total Rides", ((filter_data df status vehicle hr).length : ℚ)) ∧
      countStatus (filter_data df status vehicle hr) "Complete" +
          countStatus (filter_data df status vehicle hr) "Cancelled by Driver" +
          countStatus (filter_data df status vehicle hr) "Cancelled by Customer" +
          countStatus (filter_data df status vehicle hr) "No Driver Found" +
          countStatus (filter_data df status vehicle hr) "Incomplete" =
        (filter_data df status vehicle hr).length := by
  refine ⟨by simp [summary_numbers], ?_⟩
  exact sum_countStatus _ fun r hrm =>
    hclosed r ((filter_data_sublist df status vehicle hr).subset hrm)

theorem C4_witness :
    (∀ r ∈ ds1, r.bookingStatus ∈ enumStatuses) ∧
      ((summary_numbers ds1 "Complete" "All" (0, 23)).head? =
          some ("Total Rides", ((filter_data ds1 "Complete" "All" (0, 23)).length : ℚ)) ∧
        countStatus (filter_data ds1 "Complete" "All" (0, 23)) "Complete" +
            countStatus (filter_data ds1 "Complete" "All" (0, 23)) "Cancelled by Driver" +
            countStatus (filter_data ds1 "Complete" "All" (0, 23)) "Cancelled by Customer" +
            countStatus (filter_data ds1 "Complete" "All" (0, 23)) "No Driver Found" +
            countStatus (filter_data ds1 "Complete" "All" (0, 23)) "Incomplete" =
          (filter_data ds1 "Complete" "All" (0, 23)).length) :=
  ⟨by decide, C4_total_equals_view_length ds1 "Complete" "All" (0, 23) (by decide)⟩

/-- C5: on an empty filtered view both mean indicators are the defaulted
value 0 (the embedding is a total function, so no error or undefined value is
produced — mirroring the source's `... if not df.empty else 0` guards). -/
theorem C5_empty_view_zero_means (df : List Row) (status vehicle : String) (hr : Nat × Nat)
    (h : filter_data df status vehicle hr = []) :
    ("Avg Ride Distance", (0 : ℚ)) ∈ summary_numbers df status vehicle hr ∧
      ("Avg Driver Rating", (0 : ℚ)) ∈ summary_numbers df status vehicle hr := by
  have hz : round2 0 = 0 := by
    unfold round2 roundHalfEven
    norm_num
  simp [summary_numbers, h, hz]

theorem C5_witness :
    filter_data ds1 "No Driver Found" "All" (0, 23) = [] ∧
      (("Avg Ride Distance", (0 : ℚ)) ∈ summary_numbers ds1 "No Driver Found" "All" (0, 23) ∧
        ("Avg Driver Rating", (0 : ℚ)) ∈ summary_numbers ds1 "No Driver Found" "All" (0, 23)) :=
  ⟨by decide, C5_empty_view_zero_means ds1 "No Driver Found" "All" (0, 23) (by decide)⟩

/-- C9: `summary_metrics` returns `pn.Row()` — the empty row artifact — so
none of the computed indicators (total, the five per-status counts, the two
means) appears in what it returns; they are computed and discarded. -/
theorem C9_summary_returns_empty_row (df : List Row) (status vehicle : String)
    (hr : Nat × Nat) : summary_metrics df status vehicle hr = [] := rfl

/-! ### Forecast (`forecast_future_bookings`) -/

/-- Lexicographic comparison of character lists by code point. -/
def charsLe : List Char → List Char → Bool
  | [], _ => true
  | _ :: _, [] => false
  | a :: as, b :: bs =>
    if a.val < b.val then true else if b.val < a.val then false else charsLe as bs

/-- Lexicographic string order (the order pandas sorts the `Date` strings
by when grouping). -/
def strLe (a b : String) : Bool := charsLe a.data b.data

/-- `df.groupby('Date').size().reset_index(name='y')`: one `(date, count)`
row per distinct date of the view, group keys sorted ascending as pandas
`groupby` does. -/
def daily_rides (df : List Row) : List (String × Nat) :=
  (List.insertionSort (fun a b => strLe a b = true) (df.map (·.date)).dedup).map
    (fun d => (d, (df.filter (fun r => decide (r.date = d))).length))

/-- The artifact of the forecast aggregator: either the "⚠️ Not enough data
to forecast." sentinel pane, or the overlay chart carrying the actual daily
series and the predicted series. -/
inductive ForecastArtifact where
  | insufficientData : ForecastArtifact
  | chart (actual : List (String × ℚ)) (predicted : List (String × ℚ)) : ForecastArtifact
  deriving DecidableEq, Repr

/-- `forecast_future_bookings`, with the Prophet model abstracted as the
external predictor `predict` (spec §6: it receives the daily `(date, count)`
series and a horizon of future periods, and returns a `(date, predicted)`
series covering history + horizon).  The source fits on `daily_rides`,
requests `periods=30`, and guards with `len(daily_rides) < 5`. -/
def forecast_future_bookings (predict : List (String × Nat) → Nat → List (String × ℚ))
    (df : List Row) (status vehicle : String) (hr : Nat × Nat) : ForecastArtifact :=
  let d := filter_data df status vehicle hr
  let daily := daily_rides d
  if daily.length < 5 then ForecastArtifact.insufficientData
  else ForecastArtifact.chart (daily.map (fun p => (p.1, (p.2 : ℚ)))) (predict daily 30)

theorem length_daily_rides (df : List Row) :
    (daily_rides df).length = ((df.map (·.date)).dedup).length := by
  unfold daily_rides
  rw [List.length_map, List.length_insertionSort]

/-- C2: with exactly 4 distinct dates in the filtered view the forecast
returns the insufficient-data sentinel whatever predictor is plugged in (so
the predictor is not consulted); with 5 or more it returns the chart built
from the daily series and the predictor's output on `(daily series, 30)`,
whose historical prefix carries exactly the input series' dates (the
predictor's history-preservation contract, taken as a hypothesis). -/
theorem C2_forecast_min_history (df : List Row) (status vehicle : String) (hr : Nat × Nat)
    (predict : List (String × Nat) → Nat → List (String × ℚ))
    (hcontract :
      ((predict (daily_rides (filter_data df status vehicle hr)) 30).take
          (daily_rides (filter_data df status vehicle hr)).length).map Prod.fst =
        (daily_rides (filter_data df status vehicle hr)).map Prod.fst) :
    (daily_rides (filter_data df status vehicle hr)).length =
        (((filter_data df status vehicle hr).map (·.date)).dedup).length ∧
      ((((filter_data df status vehicle hr).map (·.date)).dedup).length = 4 →
        ∀ p, forecast_future_bookings p df status vehicle hr =
          ForecastArtifact.insufficientData) ∧
      (5 ≤ (((filter_data df status vehicle hr).map (·.date)).dedup).length →
        forecast_future_bookings predict df status vehicle hr =
            ForecastArtifact.chart
              ((daily_rides (filter_data df status vehicle hr)).map (fun p => (p.1, (p.2 : ℚ))))
              (predict (daily_rides (filter_data df status vehicle hr)) 30) ∧
          ((predict (daily_rides (filter_data df status vehicle hr)) 30).take
              (daily_rides (filter_data df status vehicle hr)).length).map Prod.fst =
            (daily_rides (filter_data df status vehicle hr)).map Prod.fst) := by
  refine ⟨length_daily_rides _, fun h4 p => ?_, fun h5 => ⟨?_, hcontract⟩⟩
  · unfold forecast_future_bookings
    rw [if_pos]
    rw [length_daily_rides, h4]
    omega
  · unfold forecast_future_bookings
    rw [if_neg]
    rw [length_daily_rides]
    omega

/-- Five-row dataset with five distinct dates, used to exercise the forecast
branch that invokes the predictor. -/
def mkRow (d : String) (st veh pick : String) (h : Nat) : Row :=
  { date := d, time := "10:00:00", bookingID := "B", bookingStatus := st,
    customerID := "U", vehicleType := veh, pickupLocation := pick,
    dropLocation := "Z", rideDistance := 6, driverRatings := 4, customerRating := 4,
    paymentMethod := "Cash", hour := h }

def ds2 : List Row :=
  [mkRow "2024-01-01" "Complete" "Sedan" "Alpha" 8,
   mkRow "2024-01-02" "Complete" "Sedan" "Alpha" 9,
   mkRow "2024-01-03" "Complete" "SUV" "Beta" 10,
   mkRow "2024-01-04" "Incomplete" "Sedan" "Beta" 11,
   mkRow "2024-01-05" "Complete" "Sedan" "Gamma" 12]

/-- A concrete predictor satisfying the history-preservation contract: it
echoes the history and appends the horizon. -/
def echoPredict (s : List (String × Nat)) (horizon : Nat) : List (String × ℚ) :=
  s.map (fun p => (p.1, (p.2 : ℚ))) ++ (List.range horizon).map (fun i => (toString i, 0))

theorem C2_witness :
    ((echoPredict (daily_rides (filter_data ds2 "All" "All" (0, 23))) 30).take
        (daily_rides (filter_data ds2 "All" "All" (0, 23))).length).map Prod.fst =
      (daily_rides (filter_data ds2 "All" "All" (0, 23))).map Prod.fst ∧
    ((daily_rides (filter_data ds2 "All" "All" (0, 23))).length =
        (((filter_data ds2 "All" "All" (0, 23)).map (·.date)).dedup).length ∧
      ((((filter_data ds2 "All" "All" (0, 23)).map (·.date)).dedup).length = 4 →
        ∀ p, forecast_future_bookings p ds2 "All" "All" (0, 23) =
          ForecastArtifact.insufficientData) ∧
      (5 ≤ (((filter_data ds2 "All" "All" (0, 23)).map (·.date)).dedup).length →
        forecast_future_bookings echoPredict ds2 "All" "All" (0, 23) =
            ForecastArtifact.chart
              ((daily_rides (filter_data ds2 "All" "All" (0, 23))).map
                (fun p => (p.1, (p.2 : ℚ))))
              (echoPredict (daily_rides (filter_data ds2 "All" "All" (0, 23))) 30) ∧
          ((echoPredict (daily_rides (filter_data ds2 "All" "All" (0, 23))) 30).take
              (daily_rides (filter_data ds2 "All" "All" (0, 23))).length).map Prod.fst =
            (daily_rides (filter_data ds2 "All" "All" (0, 23))).map Prod.fst)) :=
  ⟨by rfl, C2_forecast_min_history ds2 "All" "All" (0, 23) echoPredict (by rfl)⟩

/-! ### Top-10 pickup locations (`top_pickup_locations_map`) -/

/-- Accumulator pass of `uniqueFirst`: keep each value the first time it is
seen, skipping the ones already in `seen`. -/
def uniqueFirstAux (seen : List String) : List String → List String
  | [] => []
  | a :: rest =>
    if a ∈ seen then uniqueFirstAux seen rest else a :: uniqueFirstAux (a :: seen) rest

/-- The distinct values of a column in first-occurrence order — the key
order of the insertion-ordered hash table behind `value_counts`. -/
def uniqueFirst (l : List String) : List String := uniqueFirstAux [] l

theorem mem_uniqueFirstAux {x : String} (l : List String) :
    ∀ seen, x ∈ uniqueFirstAux seen l ↔ x ∈ l ∧ x ∉ seen := by
  induction l with
  | nil => intro seen; simp [uniqueFirstAux]
  | cons a rest ih =>
    intro seen
    unfold uniqueFirstAux
    by_cases h : a ∈ seen
    · rw [if_pos h, ih seen]
      constructor
      · rintro ⟨h1, h2⟩
        exact ⟨List.mem_cons_of_mem _ h1, h2⟩
      · rintro ⟨h1, h2⟩
        rcases List.mem_cons.mp h1 with rfl | h1
        · exact absurd h h2
        · exact ⟨h1, h2⟩
    · rw [if_neg h, List.mem_cons, ih (a :: seen)]
      by_cases hxa : x = a
      · subst hxa
        simp [h]
      · simp only [hxa, false_or, List.mem_cons]

theorem mem_uniqueFirst {x : String} {l : List String} : x ∈ uniqueFirst l ↔ x ∈ l := by
  rw [uniqueFirst, mem_uniqueFirstAux]
  simp

theorem nodup_uniqueFirstAux (l : List String) :
    ∀ seen, (uniqueFirstAux seen l).Nodup := by
  induction l with
  | nil => intro seen; simp [uniqueFirstAux]
  | cons a rest ih =>
    intro seen
    unfold uniqueFirstAux
    by_cases h : a ∈ seen
    · rw [if_pos h]
      exact ih seen
    · rw [if_neg h, List.nodup_cons]
      refine ⟨fun hmem => ?_, ih (a :: seen)⟩
      exact ((mem_uniqueFirstAux rest (a :: seen)).mp hmem).2 (List.mem_cons_self a seen)

theorem nodup_uniqueFirst (l : List String) : (uniqueFirst l).Nodup :=
  nodup_uniqueFirstAux l []

theorem indexOf_cons_shift {x y a : String} {rest : List String}
    (hx : x ≠ a) (hy : y ≠ a) (h : rest.indexOf x < rest.indexOf y) :
    (a :: rest).indexOf x < (a :: rest).indexOf y := by
  rw [List.indexOf_cons_ne _ (Ne.symm hx), List.indexOf_cons_ne _ (Ne.symm hy)]
  exact Nat.succ_lt_succ h

/-- The values kept by `uniqueFirstAux` appear in strictly increasing order
of their first occurrence in the scanned list. -/
theorem pairwise_indexOf_uniqueFirstAux (l : List String) :
    ∀ seen, (uniqueFirstAux seen l).Pairwise fun x y => l.indexOf x < l.indexOf y := by
  induction l with
  | nil => intro seen; simp [uniqueFirstAux]
  | cons a rest ih =>
    intro seen
    unfold uniqueFirstAux
    by_cases h : a ∈ seen
    · rw [if_pos h]
      refine (ih seen).imp_of_mem ?_
      intro x y hx hy hlt
      have hxa : x ≠ a := fun e =>
        ((mem_uniqueFirstAux rest seen).mp hx).2 (e ▸ h)
      have hya : y ≠ a := fun e =>
        ((mem_uniqueFirstAux rest seen).mp hy).2 (e ▸ h)
      exact indexOf_cons_shift hxa hya hlt
    · rw [if_neg h, List.pairwise_cons]
      constructor
      · intro y hy
        have hya : y ≠ a := fun e =>
          ((mem_uniqueFirstAux rest (a :: seen)).mp hy).2 (e ▸ List.mem_cons_self a seen)
        rw [List.indexOf_cons_self, List.indexOf_cons_ne _ (Ne.symm hya)]
        exact Nat.succ_pos _
      · refine (ih (a :: seen)).imp_of_mem ?_
        intro x y hx hy hlt
        have hxa : x ≠ a := fun e =>
          ((mem_uniqueFirstAux rest (a :: seen)).mp hx).2 (e ▸ List.mem_cons_self a seen)
        have hya : y ≠ a := fun e =>
          ((mem_uniqueFirstAux rest (a :: seen)).mp hy).2 (e ▸ List.mem_cons_self a seen)
        exact indexOf_cons_shift hxa hya hlt

theorem pairwise_indexOf_uniqueFirst (l : List String) :
    (uniqueFirst l).Pairwise fun x y => l.indexOf x < l.indexOf y :=
  pairwise_indexOf_uniqueFirstAux l []

/-- The sort order of `value_counts`: count descending, ties resolved by the
first-occurrence rank carried in the third component.  (pandas counts into an
insertion-ordered table and sorts by count descending, leaving equal counts
in key order.) -/
abbrev rvc (a b : String × Nat × Nat) : Prop :=
  b.2.1 < a.2.1 ∨ (a.2.1 = b.2.1 ∧ a.2.2 ≤ b.2.2)

instance : IsTrans (String × Nat × Nat) rvc :=
  ⟨fun a b c hab hbc => by
    simp only [rvc] at hab hbc ⊢
    omega⟩

instance : IsTotal (String × Nat × Nat) rvc :=
  ⟨fun a b => by
    simp only [rvc]
    omega⟩

/-- `Series.value_counts()`: one `(value, count)` pair per distinct value,
count descending, ties in first-encountered order.  Each distinct value is
tagged with its first-occurrence rank, the tagged triples are sorted by
`rvc`, and the rank is dropped. -/
def value_counts (l : List String) : List (String × Nat) :=
  (List.insertionSort rvc
      ((uniqueFirst l).enum.map fun p => (p.2, l.count p.2, p.1))).map
    fun t => (t.1, t.2.1)

/-- `df['Pickup Location'].value_counts().head(10)` as `(location, count)`
pairs. -/
def top_pickup_locations_map (df : List Row) (status vehicle : String) (hr : Nat × Nat) :
    List (String × Nat) :=
  (value_counts ((filter_data df status vehicle hr).map (·.pickupLocation))).take 10

theorem length_value_counts (l : List String) : (value_counts l).length = l.dedup.length := by
  unfold value_counts
  rw [List.length_map, List.length_insertionSort, List.length_map, List.enum_length]
  exact ((List.perm_ext_iff_of_nodup (nodup_uniqueFirst l) (List.nodup_dedup l)).mpr
    fun x => by rw [mem_uniqueFirst, List.mem_dedup]).length_eq

/-- Adjacent-in-order pairs of `value_counts` output: count weakly
descending, and equal counts ordered by first occurrence in the column. -/
theorem value_counts_pairwise (l : List String) :
    (value_counts l).Pairwise fun p q =>
      q.2 ≤ p.2 ∧ (p.2 = q.2 → l.indexOf p.1 < l.indexOf q.1) := by
  unfold value_counts
  rw [List.pairwise_map]
  set u := uniqueFirst l with hu
  set cl := u.enum.map (fun p => (p.2, l.count p.2, p.1)) with hcl
  have hclnd : cl.Nodup := by
    refine List.Nodup.map ?_ ?_
    · intro p q hpq
      have h1 : p.2 = q.2 := congrArg (fun t => t.1) hpq
      have h2 : p.1 = q.1 := congrArg (fun t => t.2.2) hpq
      exact Prod.ext h2 h1
    · exact (List.enum_map_fst u ▸ List.nodup_range u.length).of_map Prod.fst
  have hsor : (List.insertionSort rvc cl).Pairwise rvc := List.sorted_insertionSort rvc cl
  have hstnd : (List.insertionSort rvc cl).Nodup :=
    ((List.perm_insertionSort rvc cl).nodup_iff).mpr hclnd
  have hmem : ∀ t ∈ List.insertionSort rvc cl, u[t.2.2]? = some t.1 ∧ t.2.1 = l.count t.1 := by
    intro t ht
    have htc : t ∈ cl := (List.mem_insertionSort rvc).mp ht
    obtain ⟨p, hp, rfl⟩ := List.mem_map.mp htc
    exact ⟨List.mem_enum_iff_getElem?.mp hp, rfl⟩
  refine (hsor.and hstnd).imp_of_mem ?_
  rintro ⟨ka, ca, ia⟩ ⟨kb, cb, ib⟩ ha hb ⟨hr, hne⟩
  obtain ⟨hga, hca⟩ := hmem _ ha
  obtain ⟨hgb, hcb⟩ := hmem _ hb
  simp only at hga hca hgb hcb
  constructor
  · rcases hr with h | ⟨h, _⟩
    · exact Nat.le_of_lt h
    · exact Nat.le_of_eq h.symm
  · intro heq
    rcases hr with h | ⟨h, hidx⟩
    · simp only at heq h
      omega
    · have hialt : ia < ib := by
        rcases Nat.lt_or_ge ia ib with hlt | hge
        · exact hlt
        · exfalso
          have hie : ia = ib := by
            simp only at hidx
            omega
          subst hie
          rw [hga] at hgb
          have hk : ka = kb := Option.some.inj hgb
          subst hk
          exact hne (by rw [hca, hcb])
      obtain ⟨hia, hgea⟩ := List.getElem?_eq_some.mp hga
      obtain ⟨hib, hgeb⟩ := List.getElem?_eq_some.mp hgb
      have hp := List.pairwise_iff_get.mp (pairwise_indexOf_uniqueFirst l)
        ⟨ia, hu ▸ hia⟩ ⟨ib, hu ▸ hib⟩ (Fin.mk_lt_mk.mpr hialt)
      have h1 : (uniqueFirst l).get ⟨ia, hu ▸ hia⟩ = ka := hgea
      have h2 : (uniqueFirst l).get ⟨ib, hu ▸ hib⟩ = kb := hgeb
      rw [h1, h2] at hp
      exact hp

/-- C6: the top-10 artifact has `min 10 (distinct pickup locations)` entries,
its counts are weakly descending, and entries with equal counts appear in
first-encountered order of their location in the view's pickup column (the
deterministic tie-break). -/
theorem C6_top10_locations (df : List Row) (status vehicle : String) (hr : Nat × Nat) :
    (top_pickup_locations_map df status vehicle hr).length =
        min 10 (((filter_data df status vehicle hr).map (·.pickupLocation)).dedup).length ∧
      ∀ (i j : Nat) (hij : i < j)
        (hj : j < (top_pickup_locations_map df status vehicle hr).length),
        ((top_pickup_locations_map df status vehicle hr).get ⟨j, hj⟩).2 ≤
          ((top_pickup_locations_map df status vehicle hr).get ⟨i, Nat.lt_trans hij hj⟩).2 ∧
        (((top_pickup_locations_map df status vehicle hr).get ⟨i, Nat.lt_trans hij hj⟩).2 =
            ((top_pickup_locations_map df status vehicle hr).get ⟨j, hj⟩).2 →
          ((filter_data df status vehicle hr).map (·.pickupLocation)).indexOf
              ((top_pickup_locations_map df status vehicle hr).get
                ⟨i, Nat.lt_trans hij hj⟩).1 <
            ((filter_data df status vehicle hr).map (·.pickupLocation)).indexOf
              ((top_pickup_locations_map df status vehicle hr).get ⟨j, hj⟩).1) := by
  have hlen : (top_pickup_locations_map df status vehicle hr).length =
      min 10 (((filter_data df status vehicle hr).map (·.pickupLocation)).dedup).length := by
    unfold top_pickup_locations_map
    rw [List.length_take, length_value_counts]
  refine ⟨hlen, fun i j hij hj => ?_⟩
  have hres : (top_pickup_locations_map df status vehicle hr).Pairwise fun p q =>
      q.2 ≤ p.2 ∧ (p.2 = q.2 →
        ((filter_data df status vehicle hr).map (·.pickupLocation)).indexOf p.1 <
          ((filter_data df status vehicle hr).map (·.pickupLocation)).indexOf q.1) :=
    (value_counts_pairwise _).sublist (List.take_sublist 10 _)
  have hp := List.pairwise_iff_get.mp hres ⟨i, Nat.lt_trans hij hj⟩ ⟨j, hj⟩
    (Fin.mk_lt_mk.mpr hij)
  exact ⟨hp.1, hp.2⟩

theorem C6_witness_hij : (0 : Nat) < 1 := by decide

theorem C6_witness_hj : 1 < (top_pickup_locations_map ds1 "All" "All" (0, 23)).length := by
  decide

theorem C6_witness :
    (0 : Nat) < 1 ∧ 1 < (top_pickup_locations_map ds1 "All" "All" (0, 23)).length ∧
      ((top_pickup_locations_map ds1 "All" "All" (0, 23)).length =
          min 10 (((filter_data ds1 "All" "All" (0, 23)).map (·.pickupLocation)).dedup).length ∧
        ((top_pickup_locations_map ds1 "All" "All" (0, 23)).get
            ⟨1, C6_witness_hj⟩).2 ≤
          ((top_pickup_locations_map ds1 "All" "All" (0, 23)).get
            ⟨0, Nat.lt_trans C6_witness_hij C6_witness_hj⟩).2) :=
  ⟨C6_witness_hij, C6_witness_hj,
    (C6_top10_locations ds1 "All" "All" (0, 23)).1,
    ((C6_top10_locations ds1 "All" "All" (0, 23)).2 0 1 C6_witness_hij C6_witness_hj).1⟩

end Uber
